import Mathlib

/-!
# Verification of the numberblock-finder request-handling core

A shallow embedding of the request-handling core of the numberblock-finder
repository: the numeral namer (`numberToWord`, two variants), the
scrape-worthiness classifier (`shouldScrape` and its helpers), the admission
controller (`checkRateLimits`), the image-resolution pipeline of the
`scrape-numberblocks` edge function (`scrapeAndCacheNumber` and the handler's
cache/batch/sort logic), the numeric-filename selection rule of the
`proxy-image` variant of `extractInfoboxImage`, and the `generate-numberblock`
handler.

JavaScript strings are modelled as Lean `String`s; JavaScript string methods
(`includes`, `toLowerCase`, `split`, `padStart`, `replace`,
`toLocaleString`) are modelled as explicit functions over the underlying
character lists.  JavaScript numbers holding integers are modelled as `Nat`
(or `Int` where the source's behaviour on all integers is claimed).
External collaborators (Firecrawl, image hosts, object storage, the database,
OpenAI) appear as environments enumerating their observable outcomes, and
the side effects the code performs against them are collected in an explicit
trace.
-/

namespace NumberblockFinder

/-! ## JavaScript string primitives -/

/-- `sub.isPrefixOf`-based substring test on character lists:
`containsList s sub` holds iff `sub` occurs contiguously inside `s`.
Models JavaScript `String.prototype.includes`. -/
def containsList (s sub : List Char) : Bool :=
  s.tails.any (fun t => sub.isPrefixOf t)

/-- JavaScript `s.includes(sub)`. -/
def jsIncludes (s sub : String) : Bool :=
  containsList s.data sub.data

/-- JavaScript `s.toLowerCase()` (ASCII, which is all the code ever feeds it). -/
def toLowerStr (s : String) : String :=
  String.mk (s.data.map Char.toLower)

/-- Split a character list at every occurrence of `c`
(JavaScript `s.split(c)` semantics: `n` separators yield `n + 1` fields). -/
def splitOnChar (c : Char) : List Char → List (List Char)
  | [] => [[]]
  | a :: rest =>
    let r := splitOnChar c rest
    if a = c then [] :: r else (a :: r.headD []) :: r.tail

/-- JavaScript `numStr.padStart(3, '0')`. -/
def padStart3 (s : String) : String :=
  if 3 ≤ s.length then s
  else String.mk (List.replicate (3 - s.length) '0') ++ s

/-- JavaScript `s.replace(a, b)` with a plain (non-global) string pattern:
replaces only the first occurrence of the character `a`. -/
def replaceFirstChar (a b : Char) : List Char → List Char
  | [] => []
  | c :: cs => if c = a then b :: cs else c :: replaceFirstChar a b cs

/-- Group a (little-endian) character list into blocks of three, used to
model the thousands grouping of `Number.prototype.toLocaleString`. -/
def groups3 : List Char → List (List Char)
  | [] => []
  | [a] => [[a]]
  | [a, b] => [[a, b]]
  | a :: b :: c :: rest => [a, b, c] :: groups3 rest

/-- JavaScript `num.toLocaleString()` for a non-negative integer in the
default (comma-grouped) locale, e.g. `2000000 ↦ "2,000,000"`. -/
def natToCommaString (n : Nat) : String :=
  String.mk (List.intercalate [','] (((groups3 (Nat.repr n).data.reverse).map List.reverse).reverse))

/-- JavaScript `s.replace(/,/g, '')`: drop every comma. -/
def stripCommas (s : String) : String :=
  String.mk (s.data.filter (fun c => c ≠ ','))

/-! ## Numeral namer, `scrape-numberblocks` variant

`numberToWord` from `supabase/functions/scrape-numberblocks/index.ts`:
wiki-slug style, words joined by `'_'`, names `0`–`1000` and falls back to
the decimal-digit string above `1000`. -/

def onesWords : List String :=
  ["", "One", "Two", "Three", "Four", "Five", "Six", "Seven", "Eight", "Nine",
   "Ten", "Eleven", "Twelve", "Thirteen", "Fourteen", "Fifteen", "Sixteen",
   "Seventeen", "Eighteen", "Nineteen"]

def tensWords : List String :=
  ["", "", "Twenty", "Thirty", "Forty", "Fifty", "Sixty", "Seventy", "Eighty", "Ninety"]

namespace ScrapeFn

/-- `numberToWord` (scrape-numberblocks variant).  The source's
`numberToWord(remainder).replace('-', '_')` is `replaceFirstChar`. -/
def numberToWord (num : Nat) : String :=
  if num = 0 then "Zero"
  else if num < 20 then onesWords.getD num ""
  else if num < 100 then
    let ten := num / 10
    let one := num % 10
    tensWords.getD ten "" ++ (if 0 < one then "-" ++ toLowerStr (onesWords.getD one "") else "")
  else if num = 100 then "One_Hundred"
  else if 100 < num ∧ num < 1000 then
    let hundred := num / 100
    let remainder := num % 100
    if remainder = 0 then onesWords.getD hundred "" ++ "_Hundred"
    else onesWords.getD hundred "" ++ "_Hundred_" ++
      String.mk (replaceFirstChar '-' '_' (numberToWord remainder).data)
  else if num = 1000 then "One_Thousand"
  else Nat.repr num
termination_by num
decreasing_by
  omega

end ScrapeFn

namespace GenFn

/-- `numberToWord` (generate-numberblock variant): space-separated English
names through the millions, recursing on thousands/millions decompositions.
The source's final `num.toLocaleString()` fallback (unreachable for
non-negative integers) is `natToCommaString`. -/
def numberToWord (num : Nat) : String :=
  if num = 0 then "Zero"
  else if num < 20 then onesWords.getD num ""
  else if num < 100 then
    let ten := num / 10
    let one := num % 10
    tensWords.getD ten "" ++ (if 0 < one then "-" ++ toLowerStr (onesWords.getD one "") else "")
  else if num = 100 then "One Hundred"
  else if 100 < num ∧ num < 1000 then
    let hundred := num / 100
    let remainder := num % 100
    if remainder = 0 then onesWords.getD hundred "" ++ " Hundred"
    else onesWords.getD hundred "" ++ " Hundred " ++ numberToWord remainder
  else if num = 1000 then "One Thousand"
  else if 1000 ≤ num ∧ num < 1000000 then
    let thousands := num / 1000
    let remainder := num % 1000
    if remainder = 0 then numberToWord thousands ++ " Thousand"
    else numberToWord thousands ++ " Thousand " ++ numberToWord remainder
  else if 1000000 ≤ num then
    let millions := num / 1000000
    let remainder := num % 1000000
    if remainder = 0 then numberToWord millions ++ " Million"
    else numberToWord millions ++ " Million " ++ numberToWord remainder
  else natToCommaString num
termination_by num
decreasing_by
  all_goals omega

end GenFn

/-! ## Scrape-worthiness classifier (`shouldScrape` and helpers, `part_000`) -/

/-- `isPowerOf2(n)`: `n > 0 && (n & (n - 1)) === 0`.  For the arguments the
classifier feeds it (positive and below 2^31) the JavaScript 32-bit bitwise
`&` agrees with `Nat.land`. -/
def isPowerOf2 (n : Nat) : Bool :=
  decide (0 < n) && (Nat.land n (n - 1) = 0)

/-- Fuel-indexed body of the `isPowerOf10` `while` loop
(`while (n >= 10) { if (n % 10 !== 0) return false; n = n / 10; } return n === 1`).
The fuel only bounds iterations; `isPowerOf10` supplies enough. -/
def isPowerOf10Aux : Nat → Nat → Bool
  | 0, n => n = 1
  | fuel + 1, n =>
    if 10 ≤ n then (if n % 10 ≠ 0 then false else isPowerOf10Aux fuel (n / 10))
    else n = 1

/-- `isPowerOf10(n)`: `if (n < 10) return false;` then the division loop. -/
def isPowerOf10 (n : Nat) : Bool :=
  if n < 10 then false else isPowerOf10Aux n n

/-- `hasRepeatingDigits(n)`: stringify, reject single digits, then check that
every character equals the first (`str.split('').every(c => c === str[0])`). -/
def hasRepeatingDigits (n : Nat) : Bool :=
  let str := Nat.repr n
  if str.length < 2 then false
  else str.data.all (fun c => c = str.data.headD ' ')

/-- The fixed `namedMagnitudes` list of `shouldScrape`. -/
def namedMagnitudes : List Nat :=
  [1000, 10000, 100000, 1000000, 10000000, 100000000, 1000000000]

/-- `shouldScrape(num)` over all integers (JavaScript numbers holding
integers).  The branches for `num > 100` only ever see positive values, where
the `Nat` helpers coincide with the JavaScript arithmetic. -/
def shouldScrape (n : Int) : Bool :=
  if n ≤ 100 then true
  else if n ≤ 1000 then
    let m := n.toNat
    (m % 10 = 0) || (m % 25 = 0) || (m % 50 = 0) ||
    (Nat.sqrt m * Nat.sqrt m = m) || isPowerOf2 m || hasRepeatingDigits m
  else
    let m := n.toNat
    isPowerOf10 m || namedMagnitudes.contains m

/-- Spec-side notion of "has all identical digits": every character of the
decimal representation equals the first. -/
def allDigitsIdentical (m : Nat) : Prop :=
  ∀ c ∈ (Nat.repr m).data, c = (Nat.repr m).data.headD ' '

instance (m : Nat) : Decidable (allDigitsIdentical m) := by
  unfold allDigitsIdentical
  infer_instance

/-- The classifier contract exactly as the spec words it (§4.2):
tiered by magnitude, with mathematical notions of perfect square and powers
of 2 and 10. -/
def isWorthRemoteLookup (n : Int) : Prop :=
  if n ≤ 100 then True
  else if n ≤ 1000 then
    (10 ∣ n) ∨ (25 ∣ n) ∨ (50 ∣ n) ∨ (∃ k : Int, k * k = n) ∨
    (∃ k : Nat, n = 2 ^ k) ∨ allDigitsIdentical n.toNat
  else
    (∃ k : Nat, n = 10 ^ k) ∨ (∃ m ∈ namedMagnitudes, (m : Int) = n)

/-! ## Admission controller (`checkRateLimits`, `part_000`) -/

/-- One `rate_limit_log` row.  `created_at` is a millisecond timestamp. -/
structure RateLimitEvent where
  ip_address : String
  api_calls_count : Nat
  created_at : Nat
  deriving DecidableEq

/-- Sum of `api_calls_count` over this client's rows in the trailing
five-minute window (the `.eq('ip_address', ip).gte('created_at', fiveMinAgo)`
query followed by the `reduce`). -/
def ipTotalOf (log : List RateLimitEvent) (now : Nat) (ip : String) : Nat :=
  ((log.filter (fun e => e.ip_address = ip ∧ now - 5 * 60 * 1000 ≤ e.created_at)).map
    (fun e => e.api_calls_count)).sum

/-- Sum of `api_calls_count` over all rows in the trailing one-minute window. -/
def globalTotalOf (log : List RateLimitEvent) (now : Nat) : Nat :=
  ((log.filter (fun e => now - 60 * 1000 ≤ e.created_at)).map
    (fun e => e.api_calls_count)).sum

/-- `checkRateLimits`: start from zero, add `(ipTotal - 20) * 10000` when
`ipTotal > 20`, add `(globalTotal - 100) * 5000` when `globalTotal > 100`,
cap at `60000`. -/
def checkRateLimits (log : List RateLimitEvent) (now : Nat) (ip : String) : Nat :=
  let ipTotal := ipTotalOf log now ip
  let globalTotal := globalTotalOf log now
  let delay :=
    (if 20 < ipTotal then (ipTotal - 20) * 10000 else 0) +
    (if 100 < globalTotal then (globalTotal - 100) * 5000 else 0)
  min delay 60000

/-! ## Image-resolution pipeline (`scrape-numberblocks/index.ts`) -/

/-- One entry of the handler's `results` array (`NumberImage` interface).
Absent optional fields are `none`; the absent `cached` flag is `false`. -/
structure NumberImage where
  number : Nat
  imageUrl : Option String
  pageUrl : String
  cached : Bool := false
  error : Option String := none
  deriving DecidableEq

/-- Observable side effects of the pipeline against its collaborators, in
program order. -/
inductive Effect where
  | remoteScrape (num : Nat)
  | imageDownload (url : String)
  | storageUpload (path : String) (ok : Bool)
  | cacheUpsert (num : Int) (path : String)
  | generationCall (num : Int)
  deriving DecidableEq

/-- Outcome of the Firecrawl `fetch`: the promise rejects (`throws`), the
response is not ok (`httpError`, carrying `data.error` when present), or it
succeeds with the page HTML. -/
inductive FetchScrape where
  | throws (msg : String)
  | httpError (errMsg : Option String)
  | ok (html : String)
  deriving DecidableEq

/-- Outcome of the image-download `fetch`. -/
inductive FetchImage where
  | throws (msg : String)
  | httpError
  | ok (contentType : String)
  deriving DecidableEq

/-- Outcome of a `supabase.storage.upload` call. -/
inductive UploadResult where
  | err (msg : String)
  | ok
  deriving DecidableEq

/-- The environment a pipeline invocation runs against: outcomes of every
external interaction, plus the admission-controller inputs.  `extract`
models the outcome of `extractInfoboxImage` on the fetched HTML (the
claims about the pipeline quantify over all extraction outcomes). -/
structure ScrapeEnv where
  scrapeOutcome : Nat → FetchScrape
  extract : String → Nat → Option String
  downloadOutcome : String → FetchImage
  uploadOutcome : String → UploadResult
  publicUrl : String → String
  rateLog : List RateLimitEvent
  now : Nat
  clientIp : String

/-- File-extension selection from the downloaded `content-type`. -/
def extensionFor (contentType : String) : String :=
  if jsIncludes contentType "jpeg" || jsIncludes contentType "jpg" then "jpg"
  else if jsIncludes contentType "gif" then "gif"
  else if jsIncludes contentType "webp" then "webp"
  else "png"

/-- The wiki lookup target.  `encodeURIComponent` is the identity on the
namer's output alphabet (letters, `'-'`, `'_'`) and is elided. -/
def wikiPageUrl (num : Nat) : String :=
  "https://numberblocks.fandom.com/wiki/" ++ ScrapeFn.numberToWord num

/-- `scrapeAndCacheNumber`: scrape the page, extract an image URL, download
it, upload the bytes, upsert the cache row, return the public URL; every
failure is handled locally and produces a `NumberImage` (the enclosing
`try/catch` turns thrown errors into an `error` entry).  Returns the entry
together with the trace of external effects performed. -/
def scrapeAndCacheNumber (env : ScrapeEnv) (num : Nat) : NumberImage × List Effect :=
  let pageUrl := wikiPageUrl num
  match env.scrapeOutcome num with
  | .throws msg =>
    ({ number := num, imageUrl := none, pageUrl := pageUrl, error := some msg },
     [.remoteScrape num])
  | .httpError errMsg =>
    ({ number := num, imageUrl := none, pageUrl := pageUrl,
       error := some (errMsg.getD "Request failed") },
     [.remoteScrape num])
  | .ok html =>
    match env.extract html num with
    | none =>
      ({ number := num, imageUrl := none, pageUrl := pageUrl, error := some "No image found" },
       [.remoteScrape num])
    | some originalImageUrl =>
      match env.downloadOutcome originalImageUrl with
      | .throws msg =>
        ({ number := num, imageUrl := none, pageUrl := pageUrl, error := some msg },
         [.remoteScrape num, .imageDownload originalImageUrl])
      | .httpError =>
        ({ number := num, imageUrl := some originalImageUrl, pageUrl := pageUrl },
         [.remoteScrape num, .imageDownload originalImageUrl])
      | .ok contentType =>
        let storagePath := padStart3 (Nat.repr num) ++ "." ++ extensionFor contentType
        match env.uploadOutcome storagePath with
        | .err _ =>
          ({ number := num, imageUrl := some originalImageUrl, pageUrl := pageUrl },
           [.remoteScrape num, .imageDownload originalImageUrl,
            .storageUpload storagePath false])
        | .ok =>
          ({ number := num, imageUrl := some (env.publicUrl storagePath),
             pageUrl := pageUrl, cached := true },
           [.remoteScrape num, .imageDownload originalImageUrl,
            .storageUpload storagePath true, .cacheUpsert num storagePath])

/-- The requested numbers `startNumber..endNumber`, in ascending order. -/
def rangeNumbers (lo hi : Nat) : List Nat :=
  List.range' lo (hi + 1 - lo)

/-- The entry the handler emits for a cache hit with storage path `path`. -/
def cachedResult (env : ScrapeEnv) (n : Nat) (path : String) : NumberImage :=
  { number := n, imageUrl := some (env.publicUrl path), pageUrl := wikiPageUrl n,
    cached := true }

/-- The cache-hit entries, in range order (the first half of the handler's
classification loop). -/
def cachedResults (env : ScrapeEnv) (cache : Nat → Option String) (lo hi : Nat) :
    List NumberImage :=
  (rangeNumbers lo hi).filterMap (fun n => (cache n).map (cachedResult env n))

/-- `numbersToScrape`: the cache misses, in range order. -/
def numbersToScrape (cache : Nat → Option String) (lo hi : Nat) : List Nat :=
  (rangeNumbers lo hi).filter (fun n => (cache n).isNone)

/-- Fuel-indexed chunking; the fuel only bounds iterations of the batching
`for` loop (`i += batchSize`) and `chunks5` supplies enough. -/
def chunks5Aux : Nat → List Nat → List (List Nat)
  | 0, _ => []
  | _ + 1, [] => []
  | fuel + 1, l => l.take 5 :: chunks5Aux fuel (l.drop 5)

/-- The batching loop: consecutive slices of at most `batchSize = 5`. -/
def chunks5 (l : List Nat) : List (List Nat) :=
  chunks5Aux l.length l

/-- The freshly-scraped entries: each batch is dispatched concurrently but
`Promise.all` preserves submission order. -/
def scrapeResults (env : ScrapeEnv) (cache : Nat → Option String) (lo hi : Nat) :
    List NumberImage :=
  (chunks5 (numbersToScrape cache lo hi)).flatMap
    (fun b => b.map (fun n => (scrapeAndCacheNumber env n).1))

/-- All gathered entries before the final sort: cache hits first (pushed
during classification), then batch results in dispatch order. -/
def gatheredResults (env : ScrapeEnv) (cache : Nat → Option String) (lo hi : Nat) :
    List NumberImage :=
  cachedResults env cache lo hi ++ scrapeResults env cache lo hi

/-- `results.sort((a, b) => a.number - b.number)`. -/
def sortResults (l : List NumberImage) : List NumberImage :=
  l.mergeSort (fun a b => a.number ≤ b.number)

/-- The `data` array of the handler's success response. -/
def resolveData (env : ScrapeEnv) (cache : Nat → Option String) (lo hi : Nat) :
    List NumberImage :=
  sortResults (gatheredResults env cache lo hi)

/-- The external effects of one pipeline invocation, in program order. -/
def scrapeTrace (env : ScrapeEnv) (cache : Nat → Option String) (lo hi : Nat) :
    List Effect :=
  (numbersToScrape cache lo hi).flatMap (fun n => (scrapeAndCacheNumber env n).2)

/-- The admission-controller delay of one invocation.  Modelled from the
`part_000` plan: cached content is free ("Check cache first - if all
requested numbers are cached, no rate limit applies"), the delay is computed
only before Firecrawl calls are made. -/
def admissionDelay (env : ScrapeEnv) (cache : Nat → Option String) (lo hi : Nat) : Nat :=
  if numbersToScrape cache lo hi = [] then 0
  else checkRateLimits env.rateLog env.now env.clientIp

/-! ## Image extraction, `proxy-image` variant of `extractInfoboxImage` -/

/-- A case-insensitive `/A.*B/i` test: some occurrence of `a` is followed
(possibly with a gap) by an occurrence of `b`.  The caller lowercases. -/
def gapIncludes (s a b : String) : Bool :=
  s.data.tails.any (fun t => a.data.isPrefixOf t && containsList (t.drop a.length) b.data)

/-- `isValidCharacterImage(imageUrl)`: the denylist of non-character asset
patterns (every pattern in the source carries the `i` flag, so the test runs
on the lowercased URL) followed by the allow-listed-domain check. -/
def isValidCharacterImage (imageUrl : String) : Bool :=
  let l := toLowerStr imageUrl
  !(jsIncludes l "placeholder" || jsIncludes l "icon" || jsIncludes l "favicon" ||
    jsIncludes l "logo" || jsIncludes l "banner" || jsIncludes l "site-logo" ||
    jsIncludes l "wiki-wordmark" || jsIncludes l "community-header" ||
    jsIncludes l "avatar" || jsIncludes l "badge" || jsIncludes l "button" ||
    jsIncludes l "sprite" || jsIncludes l "blocks_universe" ||
    gapIncludes l "blocks" "universe" || jsIncludes l "community" ||
    gapIncludes l "wiki" "wordmark") &&
  jsIncludes imageUrl "static.wikia.nocookie.net/numberblocks/images"

/-- `imageUrl.split('/').pop()?.split('?')[0] || ''`, lowercased: the
filename part of a candidate URL. -/
def filenameOf (url : String) : String :=
  toLowerStr (String.mk (((splitOnChar '?' ((splitOnChar '/' url.data).getLastD [])).headD [])))

/-- The priority-1 numeric-filename test of `extractInfoboxImage`:
`urlLower.includes(numStr) || urlLower.includes(numWithCommas.replace(/,/g, ''))`
with `numStr = num.toString()` and `numWithCommas = num.toLocaleString()`. -/
def numericFilenameCondition (num : Nat) (url : String) : Bool :=
  let urlLower := filenameOf url
  let numStr := Nat.repr num
  let numWithCommas := natToCommaString num
  jsIncludes urlLower numStr || jsIncludes urlLower (stripCommas numWithCommas)

/-! ## `generate-numberblock` handler -/

/-- The `number` field of the request body: absent (or `undefined`/`null`),
present but not a number, or a number. -/
inductive GenInput where
  | absent
  | nonNumber
  | num (n : Int)
  deriving DecidableEq

/-- `!number || typeof number !== 'number'`: absent and non-number values
fail the type test; the number `0` is falsy. -/
def genInputInvalid : GenInput → Bool
  | .absent => true
  | .nonNumber => true
  | .num n => n = 0

/-- Outcome of the OpenAI images call. -/
inductive GenApiOutcome where
  | throws (msg : String)
  | rateLimited
  | httpError
  | noImage
  | ok
  deriving DecidableEq

/-- Environment of one `generate-numberblock` invocation. -/
structure GenEnv where
  apiKeyPresent : Bool
  api : GenApiOutcome
  upload : UploadResult
  publicUrl : String → String

/-- The JSON body and HTTP status of the handler's response. -/
structure GenResponse where
  success : Bool
  status : Nat
  error : Option String := none
  imageUrl : Option String := none
  deriving DecidableEq

/-- The `generate-numberblock` handler: configuration check, input
validation, OpenAI call, storage upload, cache upsert, public URL.  Returns
the response together with the trace of external effects performed. -/
def generateHandler (env : GenEnv) (input : GenInput) : GenResponse × List Effect :=
  if !env.apiKeyPresent then
    ({ success := false, status := 500, error := some "OPENAI_API_KEY is not configured" }, [])
  else if genInputInvalid input then
    ({ success := false, status := 400, error := some "Number is required" }, [])
  else
    match input with
    | .num n =>
      match env.api with
      | .throws msg => ({ success := false, status := 500, error := some msg }, [.generationCall n])
      | .rateLimited =>
        ({ success := false, status := 429,
           error := some "Rate limit exceeded. Please try again later." }, [.generationCall n])
      | .httpError =>
        ({ success := false, status := 500, error := some "Failed to generate image" },
         [.generationCall n])
      | .noImage =>
        ({ success := false, status := 500, error := some "No image generated" },
         [.generationCall n])
      | .ok =>
        let storagePath := "ai-" ++ padStart3 (Int.repr n) ++ ".png"
        match env.upload with
        | .err _ =>
          ({ success := false, status := 500, error := some "Failed to save image" },
           [.generationCall n, .storageUpload storagePath false])
        | .ok =>
          ({ success := true, status := 200, imageUrl := some (env.publicUrl storagePath) },
           [.generationCall n, .storageUpload storagePath true, .cacheUpsert n storagePath])
    | _ =>
      ({ success := false, status := 400, error := some "Number is required" }, [])

/-! ## Concrete environments and inputs used by witnesses and counterexamples -/

/-- A concrete two-row log: client `"1.2.3.4"` has 25 calls inside the
5-minute window but outside the 1-minute window; another client has 50
calls just now. -/
def rateLogA : List RateLimitEvent :=
  [{ ip_address := "1.2.3.4", api_calls_count := 25, created_at := 880000 },
   { ip_address := "5.6.7.8", api_calls_count := 50, created_at := 1000000 }]

/-- A fully-working generate environment. -/
def genEnvOk : GenEnv where
  apiKeyPresent := true
  api := .ok
  upload := .ok
  publicUrl := fun p => "https://example.supabase.co/storage/v1/object/public/numberblocks-images/" ++ p

/-- A pipeline environment in which every remote lookup fails. -/
def defaultScrapeEnv : ScrapeEnv where
  scrapeOutcome := fun _ => .httpError none
  extract := fun _ _ => none
  downloadOutcome := fun _ => .httpError
  uploadOutcome := fun _ => .ok
  publicUrl := fun p => p
  rateLog := []
  now := 0
  clientIp := "unknown"

/-- A pipeline environment in which every step succeeds. -/
def envAllOk : ScrapeEnv where
  scrapeOutcome := fun _ => .ok "<html/>"
  extract := fun _ _ => some "https://static.wikia.nocookie.net/numberblocks/images/a/ab/Seven.png"
  downloadOutcome := fun _ => .ok "image/png"
  uploadOutcome := fun _ => .ok
  publicUrl := fun p => "https://example.supabase.co/storage/" ++ p
  rateLog := []
  now := 0
  clientIp := "unknown"

/-- A pipeline environment in which the scrape and extraction succeed but
the image download returns a non-ok HTTP status. -/
def envDownloadFails : ScrapeEnv where
  scrapeOutcome := fun _ => .ok "<html/>"
  extract := fun _ _ => some "https://static.wikia.nocookie.net/numberblocks/images/a/ab/Seven.png"
  downloadOutcome := fun _ => .httpError
  uploadOutcome := fun _ => .ok
  publicUrl := fun p => p
  rateLog := []
  now := 0
  clientIp := "unknown"

/-- A cache in which every number is resident. -/
def cacheAll : Nat → Option String :=
  fun n => some (padStart3 (Nat.repr n) ++ ".png")

/-- A candidate image URL whose filename carries the target number with
thousands separators. -/
def commaUrl : String :=
  "https://static.wikia.nocookie.net/numberblocks/images/2/2a/Numberblock_2,000,000.png"

/-- The same candidate with the separators removed. -/
def plainUrl : String :=
  "https://static.wikia.nocookie.net/numberblocks/images/2/2a/Numberblock_2000000.png"

/-! ## Helper lemmas -/

theorem str_ne_empty_iff (s : String) : s ≠ "" ↔ s.data ≠ [] := by
  cases s with
  | mk d =>
    constructor
    · intro h hd
      exact h (by rw [show d = [] from hd])
    · intro h hd
      exact h (congrArg String.data hd)

theorem append_ne_empty_left (s t : String) (h : s ≠ "") : s ++ t ≠ "" := by
  rw [str_ne_empty_iff] at h ⊢
  rw [String.data_append]
  simp [h]

theorem append_ne_empty_right (s t : String) (h : t ≠ "") : s ++ t ≠ "" := by
  rw [str_ne_empty_iff] at h ⊢
  rw [String.data_append]
  simp [h]

theorem toDigitsCore_length_ge (b : Nat) :
    ∀ (f n : Nat) (l : List Char), l.length + 1 ≤ (Nat.toDigitsCore b (f + 1) n l).length := by
  intro f
  induction f with
  | zero =>
    intro n l
    simp only [Nat.toDigitsCore]
    split <;> simp [Nat.toDigitsCore]
  | succ f ih =>
    intro n l
    simp only [Nat.toDigitsCore]
    split
    · simp
    · exact le_trans (by simp) (ih (n / b) ((n % b).digitChar :: l))

theorem repr_ne_empty (n : Nat) : Nat.repr n ≠ "" := by
  rw [str_ne_empty_iff]
  show Nat.toDigitsCore 10 (n + 1) n [] ≠ []
  intro h
  have h1 := toDigitsCore_length_ge 10 n n []
  rw [h] at h1
  simp at h1

theorem repr_data_length_ge_two (n : Nat) (h : 10 ≤ n) : 2 ≤ (Nat.repr n).data.length := by
  cases n with
  | zero => omega
  | succ f =>
    show 2 ≤ (Nat.toDigitsCore 10 (f + 1 + 1) (f + 1) []).length
    have hdiv : (f + 1) / 10 ≠ 0 := by omega
    rw [show Nat.toDigitsCore 10 (f + 1 + 1) (f + 1) []
        = Nat.toDigitsCore 10 (f + 1) ((f + 1) / 10) [((f + 1) % 10).digitChar] by
      conv_lhs => rw [Nat.toDigitsCore]
      simp [hdiv]]
    exact le_trans (by simp) (toDigitsCore_length_ge 10 f ((f + 1) / 10) _)

/-! ## C1: admission-controller delay formula -/

/-- **C1.** For every rate-limit log, clock and client identity,
`checkRateLimits` returns
`min (max 0 (ipTotal - 20) * 10000 + max 0 (globalTotal - 100) * 5000) 60000`
milliseconds, where `ipTotal` sums `api_calls_count` over the client's rows
in the trailing 5-minute window and `globalTotal` sums it over all rows in
the trailing 1-minute window; in particular `ipTotal = 25, globalTotal = 50`
yields `50000` and `ipTotal = 0, globalTotal = 150` yields `60000`. -/
theorem checkRateLimits_formula :
    (∀ (log : List RateLimitEvent) (now : Nat) (ip : String),
      (checkRateLimits log now ip : Int) =
        min (max 0 ((ipTotalOf log now ip : Int) - 20) * 10000 +
             max 0 ((globalTotalOf log now : Int) - 100) * 5000) 60000) ∧
    (∀ (log : List RateLimitEvent) (now : Nat) (ip : String),
      ipTotalOf log now ip = 25 → globalTotalOf log now = 50 →
        checkRateLimits log now ip = 50000) ∧
    (∀ (log : List RateLimitEvent) (now : Nat) (ip : String),
      ipTotalOf log now ip = 0 → globalTotalOf log now = 150 →
        checkRateLimits log now ip = 60000) := by
  refine ⟨?_, ?_, ?_⟩
  · intro log now ip
    simp only [checkRateLimits]
    split_ifs <;> push_cast <;> omega
  · intro log now ip h1 h2
    simp [checkRateLimits, h1, h2]
  · intro log now ip h1 h2
    simp [checkRateLimits, h1, h2]

theorem checkRateLimits_formula_witness :
    ipTotalOf rateLogA 1000000 "1.2.3.4" = 25 ∧ globalTotalOf rateLogA 1000000 = 50 ∧
      checkRateLimits rateLogA 1000000 "1.2.3.4" = 50000 :=
  ⟨by decide, by decide, checkRateLimits_formula.2.1 rateLogA 1000000 "1.2.3.4"
    (by decide) (by decide)⟩

/-! ## C10: `generate-numberblock` rejects the falsy number 0 -/

/-- **C10.** With the API key configured, the generate endpoint rejects
`number = 0` — and any missing or non-number input — with `success = false`,
error `"Number is required"` and HTTP 400, performing no generation call,
no storage write and no cache write. -/
theorem generate_rejects_falsy_number :
    ∀ env : GenEnv, env.apiKeyPresent = true →
      (generateHandler env (.num 0) =
        ({ success := false, status := 400, error := some "Number is required" }, [])) ∧
      (∀ input, genInputInvalid input = true →
        generateHandler env input =
          ({ success := false, status := 400, error := some "Number is required" }, [])) := by
  intro env h
  refine ⟨?_, ?_⟩
  · simp [generateHandler, genInputInvalid, h]
  · intro input hi
    simp [generateHandler, h, hi]

theorem generate_rejects_falsy_number_witness :
    genEnvOk.apiKeyPresent = true ∧
      generateHandler genEnvOk (.num 0) =
        ({ success := false, status := 400, error := some "Number is required" }, []) :=
  ⟨rfl, (generate_rejects_falsy_number genEnvOk rfl).1⟩

/-! ## C7: numeral-namer values -/

/-- **C7 counterexample.** The scrape-side `numberToWord` — the namer that
computes the wiki lookup target — returns `"One_Hundred"` for 100, not
`"One Hundred"`. -/
theorem numberToWord_100_not_space :
    ScrapeFn.numberToWord 100 = "One_Hundred" ∧ ScrapeFn.numberToWord 100 ≠ "One Hundred" := by
  refine ⟨?_, ?_⟩ <;> simp [ScrapeFn.numberToWord]

/-- **C7 (amended).** The generate-side `numberToWord` returns
`"One Hundred"` for 100, `"One Thousand"` for 1000 and `"Twenty-one"` for
21; the scrape-side variant produces the same words joined by the wiki slug
separator `'_'` (`"One_Hundred"`, `"One_Thousand"`) and likewise
`"Twenty-one"` for 21. -/
theorem numberToWord_naming_values :
    GenFn.numberToWord 100 = "One Hundred" ∧ GenFn.numberToWord 1000 = "One Thousand" ∧
    GenFn.numberToWord 21 = "Twenty-one" ∧ ScrapeFn.numberToWord 21 = "Twenty-one" ∧
    ScrapeFn.numberToWord 100 = "One_Hundred" ∧ ScrapeFn.numberToWord 1000 = "One_Thousand" :=
  ⟨by simp [GenFn.numberToWord],
   by simp [GenFn.numberToWord],
   by simp [GenFn.numberToWord]; decide,
   by simp [ScrapeFn.numberToWord]; decide,
   by simp [ScrapeFn.numberToWord],
   by simp [ScrapeFn.numberToWord]⟩

/-! ## C8: namer totality, non-emptiness and digit fallback -/

theorem onesWords_getD_ne_empty (n : Nat) (h1 : 1 ≤ n) (h19 : n ≤ 19) :
    onesWords.getD n "" ≠ "" := by
  interval_cases n <;> decide

theorem tensWords_getD_ne_empty (t : Nat) (h2 : 2 ≤ t) (h9 : t ≤ 9) :
    tensWords.getD t "" ≠ "" := by
  interval_cases t <;> decide

theorem scrape_numberToWord_ne_empty (n : Nat) : ScrapeFn.numberToWord n ≠ "" := by
  rw [ScrapeFn.numberToWord]
  split_ifs with h1 h2 h3 h4 h5 h6
  · decide
  · exact onesWords_getD_ne_empty n (by omega) (by omega)
  · exact append_ne_empty_left _ _ (tensWords_getD_ne_empty (n / 10) (by omega) (by omega))
  · decide
  · dsimp only
    split_ifs with h7
    · exact append_ne_empty_right _ _ (by decide)
    · exact append_ne_empty_left _ _ (append_ne_empty_right _ _ (by decide))
  · decide
  · exact repr_ne_empty n

theorem gen_numberToWord_ne_empty (n : Nat) : GenFn.numberToWord n ≠ "" := by
  rw [GenFn.numberToWord]
  split_ifs with h1 h2 h3 h4 h5 h6 h7 h8
  · decide
  · exact onesWords_getD_ne_empty n (by omega) (by omega)
  · exact append_ne_empty_left _ _ (tensWords_getD_ne_empty (n / 10) (by omega) (by omega))
  · decide
  · dsimp only
    split_ifs with h9
    · exact append_ne_empty_right _ _ (by decide)
    · exact append_ne_empty_left _ _ (append_ne_empty_right _ _ (by decide))
  · decide
  · dsimp only
    split_ifs with h9
    · exact append_ne_empty_right _ _ (by decide)
    · exact append_ne_empty_left _ _ (append_ne_empty_right _ _ (by decide))
  · dsimp only
    split_ifs with h9
    · exact append_ne_empty_right _ _ (by decide)
    · exact append_ne_empty_left _ _ (append_ne_empty_right _ _ (by decide))
  · omega

/-- **C8.** For every `n` in `[0, 1000000]` both `numberToWord` variants are
(total functions that) return a non-empty string, and the scrape-side namer
falls back to the decimal-digit string for every number beyond its naming
ceiling of 1000. -/
theorem numberToWord_total_nonempty :
    (∀ n : Nat, n ≤ 1000000 →
      ScrapeFn.numberToWord n ≠ "" ∧ GenFn.numberToWord n ≠ "") ∧
    (∀ n : Nat, 1000 < n → ScrapeFn.numberToWord n = Nat.repr n) := by
  refine ⟨fun n _ => ⟨scrape_numberToWord_ne_empty n, gen_numberToWord_ne_empty n⟩, ?_⟩
  intro n h
  rw [ScrapeFn.numberToWord]
  split_ifs with h1 h2 h3 h4 h5 h6 <;> first | rfl | omega

theorem numberToWord_total_nonempty_witness :
    (ScrapeFn.numberToWord 12345 ≠ "" ∧ GenFn.numberToWord 12345 ≠ "") ∧
      ScrapeFn.numberToWord 12345 = Nat.repr 12345 :=
  ⟨numberToWord_total_nonempty.1 12345 (by norm_num),
   numberToWord_total_nonempty.2 12345 (by norm_num)⟩

/-! ## C2: the scrape-worthiness classifier matches its spec -/

set_option maxRecDepth 8192 in
theorem isPowerOf2_range_table :
    ∀ x : Nat, x < 1001 → 100 < x →
      (isPowerOf2 x = true ↔ (x = 128 ∨ x = 256 ∨ x = 512)) := by
  decide

theorem pow2_exists_iff (m : Nat) (h1 : 100 < m) (h2 : m ≤ 1000) :
    (∃ k : Nat, m = 2 ^ k) ↔ (m = 128 ∨ m = 256 ∨ m = 512) := by
  constructor
  · rintro ⟨k, rfl⟩
    have hk : k < 10 := by
      by_contra hk
      push_neg at hk
      have h10 : (2 : Nat) ^ 10 ≤ 2 ^ k := Nat.pow_le_pow_right (by norm_num) hk
      have : (2 : Nat) ^ 10 = 1024 := by norm_num
      omega
    interval_cases k <;> revert h1 h2 <;> decide
  · rintro (rfl | rfl | rfl)
    · exact ⟨7, by norm_num⟩
    · exact ⟨8, by norm_num⟩
    · exact ⟨9, by norm_num⟩

theorem int_square_iff (m : Nat) :
    (∃ k : Int, k * k = (m : Int)) ↔ ∃ j : Nat, j * j = m := by
  constructor
  · rintro ⟨k, hk⟩
    refine ⟨k.natAbs, ?_⟩
    have h1 : ((k.natAbs * k.natAbs : Nat) : Int) = k * k := Int.natAbs_mul_self
    rw [hk] at h1
    exact_mod_cast h1
  · rintro ⟨j, hj⟩
    exact ⟨(j : Int), by exact_mod_cast hj⟩

theorem hasRepeatingDigits_iff (m : Nat) (h : 10 ≤ m) :
    hasRepeatingDigits m = true ↔ allDigitsIdentical m := by
  have hlen := repr_data_length_ge_two m h
  simp only [hasRepeatingDigits]
  rw [if_neg (by
    show ¬(Nat.repr m).length < 2
    have : (Nat.repr m).length = (Nat.repr m).data.length := rfl
    omega)]
  simp [List.all_eq_true, allDigitsIdentical]

theorem isPowerOf10Aux_iff :
    ∀ (f m : Nat), m ≤ f → (isPowerOf10Aux f m = true ↔ ∃ k : Nat, m = 10 ^ k) := by
  intro f
  induction f with
  | zero =>
    intro m hm
    have : m = 0 := by omega
    subst this
    simp only [isPowerOf10Aux]
    constructor
    · intro h
      simp at h
    · rintro ⟨k, hk⟩
      have : 0 < 10 ^ k := Nat.pos_pow_of_pos k (by norm_num)
      omega
  | succ f ih =>
    intro m hm
    simp only [isPowerOf10Aux]
    by_cases h10 : 10 ≤ m
    · rw [if_pos h10]
      by_cases hmod : m % 10 = 0
      · rw [if_neg (by simp [hmod])]
        have hdivle : m / 10 ≤ f := by omega
        rw [ih (m / 10) hdivle]
        constructor
        · rintro ⟨k, hk⟩
          refine ⟨k + 1, ?_⟩
          have hdvd : 10 ∣ m := Nat.dvd_of_mod_eq_zero hmod
          have : 10 * (m / 10) = m := Nat.mul_div_cancel' hdvd
          rw [pow_succ]
          omega
        · rintro ⟨k, hk⟩
          cases k with
          | zero =>
            subst hk
            omega
          | succ j =>
            refine ⟨j, ?_⟩
            subst hk
            rw [pow_succ]
            omega
      · rw [if_pos (by simpa using hmod)]
        constructor
        · intro h
          simp at h
        · rintro ⟨k, hk⟩
          have hk0 : k ≠ 0 := by
            rintro rfl
            rw [pow_zero] at hk
            omega
          have hdvd : (10 : Nat) ∣ 10 ^ k := dvd_pow_self 10 hk0
          rw [← hk] at hdvd
          omega
    · rw [if_neg h10]
      constructor
      · intro h
        exact ⟨0, by simpa using h⟩
      · rintro ⟨k, hk⟩
        cases k with
        | zero => simpa using hk
        | succ j =>
          have : (10 : Nat) ^ 1 ≤ 10 ^ (j + 1) := Nat.pow_le_pow_right (by norm_num) (by omega)
          simp only [pow_one] at this
          omega

theorem isPowerOf10_iff (m : Nat) (h : 10 ≤ m) :
    isPowerOf10 m = true ↔ ∃ k : Nat, m = 10 ^ k := by
  simp only [isPowerOf10]
  rw [if_neg (by omega)]
  exact isPowerOf10Aux_iff m m le_rfl

theorem sqrt_103 : Nat.sqrt 103 = 10 := by
  have a : Nat.sqrt 103 < 11 := Nat.sqrt_lt.mpr (by norm_num)
  have b : 10 ≤ Nat.sqrt 103 := Nat.le_sqrt.mpr (by norm_num)
  omega

theorem sqrt_256 : Nat.sqrt 256 = 16 := by
  rw [show (256 : Nat) = 16 * 16 by norm_num]
  exact Nat.sqrt_eq 16

theorem natCast_eq_pow_iff (m b k : Nat) (n : Int) (h : (m : Int) = n) :
    (m = b ^ k) ↔ (n = (b : Int) ^ k) := by
  constructor
  · rintro rfl
    rw [← h]
    push_cast
    ring
  · intro hn
    have h2 : (m : Int) = ((b ^ k : Nat) : Int) := by
      rw [h, hn]
      push_cast
      ring
    exact_mod_cast h2

set_option maxHeartbeats 1000000 in
/-- **C2.** `shouldScrape` decides exactly the spec's tiered predicate: true
for every integer `n ≤ 100`; for `101 ≤ n ≤ 1000` true iff `n` is a multiple
of 10, 25 or 50, a perfect square, a power of 2, or has all identical
digits; for `n > 1000` true iff `n` is an exact power of 10 or a named
magnitude.  In particular it accepts 150, 256 and 1000 and rejects 103 and
1500. -/
theorem shouldScrape_matches_spec :
    (∀ n : Int, shouldScrape n = true ↔ isWorthRemoteLookup n) ∧
    shouldScrape 150 = true ∧ shouldScrape 256 = true ∧ shouldScrape 1000 = true ∧
    shouldScrape 103 = false ∧ shouldScrape 1500 = false := by
  refine ⟨?_, by decide, ?_, by decide, ?_, by decide⟩
  · intro n
    unfold shouldScrape isWorthRemoteLookup
    split_ifs with hA hB
    · simp
    · dsimp only
      have hn0 : (0 : Int) ≤ n := by omega
      have hmn : ((n.toNat : Int)) = n := Int.toNat_of_nonneg hn0
      have hm1 : 100 < n.toNat := by omega
      have hm2 : n.toNat ≤ 1000 := by omega
      have e1 : n.toNat % 10 = 0 ↔ (10 : Int) ∣ n := by omega
      have e2 : n.toNat % 25 = 0 ↔ (25 : Int) ∣ n := by omega
      have e3 : n.toNat % 50 = 0 ↔ (50 : Int) ∣ n := by omega
      have e4 : Nat.sqrt n.toNat * Nat.sqrt n.toNat = n.toNat ↔ ∃ k : Int, k * k = n := by
        rw [← Nat.exists_mul_self, ← int_square_iff, hmn]
      have e5 : isPowerOf2 n.toNat = true ↔ ∃ k : Nat, n = 2 ^ k := by
        rw [isPowerOf2_range_table n.toNat (by omega) hm1,
          ← pow2_exists_iff n.toNat hm1 hm2]
        exact exists_congr fun k => natCast_eq_pow_iff n.toNat 2 k n hmn
      have e6 : hasRepeatingDigits n.toNat = true ↔ allDigitsIdentical n.toNat :=
        hasRepeatingDigits_iff n.toNat (by omega)
      simp only [Bool.or_eq_true, decide_eq_true_eq, e1, e2, e3, e4, e5, e6]
      simp only [or_assoc]
    · dsimp only
      have hn0 : (0 : Int) ≤ n := by omega
      have hmn : ((n.toNat : Int)) = n := Int.toNat_of_nonneg hn0
      have hm1 : 1000 < n.toNat := by omega
      have e1 : isPowerOf10 n.toNat = true ↔ ∃ k : Nat, n = 10 ^ k := by
        rw [isPowerOf10_iff n.toNat (by omega)]
        exact exists_congr fun k => natCast_eq_pow_iff n.toNat 10 k n hmn
      have e2 : namedMagnitudes.contains n.toNat = true ↔
          ∃ m ∈ namedMagnitudes, (m : Int) = n := by
        rw [show namedMagnitudes.contains n.toNat = true ↔ n.toNat ∈ namedMagnitudes by
          simp [List.contains]]
        constructor
        · intro hmem
          exact ⟨n.toNat, hmem, hmn⟩
        · rintro ⟨m, hm, hcast⟩
          have hme : m = n.toNat := by omega
          rwa [← hme]
      simp only [Bool.or_eq_true, e1, e2]
  · have hs : Nat.sqrt (256 : Int).toNat = 16 := by
      rw [show ((256 : Int)).toNat = 256 from rfl]
      exact sqrt_256
    simp only [shouldScrape]
    norm_num [hs]
    try decide
  · have hs : Nat.sqrt (103 : Int).toNat = 10 := by
      rw [show ((103 : Int)).toNat = 103 from rfl]
      exact sqrt_103
    simp only [shouldScrape]
    norm_num [hs]
    try decide

/-! ## Pipeline lemmas -/

theorem scrapeAndCacheNumber_number (env : ScrapeEnv) (num : Nat) :
    ((scrapeAndCacheNumber env num).1).number = num := by
  unfold scrapeAndCacheNumber
  cases env.scrapeOutcome num with
  | throws msg => rfl
  | httpError e => rfl
  | ok html =>
    dsimp only
    cases env.extract html num with
    | none => rfl
    | some u =>
      dsimp only
      cases env.downloadOutcome u with
      | throws m => rfl
      | httpError => rfl
      | ok ct =>
        dsimp only
        cases env.uploadOutcome (padStart3 (Nat.repr num) ++ "." ++ extensionFor ct) with
        | err m => rfl
        | ok => rfl

theorem chunks5Aux_flatten :
    ∀ (fuel : Nat) (l : List Nat), l.length ≤ fuel → (chunks5Aux fuel l).flatten = l := by
  intro fuel
  induction fuel with
  | zero =>
    intro l h
    have hl : l = [] := List.eq_nil_of_length_eq_zero (by omega)
    subst hl
    rfl
  | succ f ih =>
    intro l h
    cases l with
    | nil => rfl
    | cons a rest =>
      show ((a :: rest).take 5 :: chunks5Aux f ((a :: rest).drop 5)).flatten = a :: rest
      rw [List.flatten_cons, ih _ (by rw [List.length_drop]; simp at h ⊢; omega),
        List.take_append_drop]

theorem chunks5_flatten (l : List Nat) : (chunks5 l).flatten = l :=
  chunks5Aux_flatten l.length l le_rfl

theorem flatMap_map_eq_flatten_map {α : Type} (L : List (List Nat)) (f : Nat → α) :
    L.flatMap (fun b => b.map f) = L.flatten.map f := by
  induction L with
  | nil => rfl
  | cons b L ih => simp only [List.flatMap_cons, List.flatten_cons, List.map_append, ih]

theorem scrapeResults_eq (env : ScrapeEnv) (cache : Nat → Option String) (lo hi : Nat) :
    scrapeResults env cache lo hi
      = (numbersToScrape cache lo hi).map (fun n => (scrapeAndCacheNumber env n).1) := by
  unfold scrapeResults
  rw [flatMap_map_eq_flatten_map, chunks5_flatten]

theorem cachedResults_map_number (env : ScrapeEnv) (cache : Nat → Option String) (lo hi : Nat) :
    (cachedResults env cache lo hi).map (fun r => r.number)
      = (rangeNumbers lo hi).filter (fun n => (cache n).isSome) := by
  unfold cachedResults
  induction rangeNumbers lo hi with
  | nil => rfl
  | cons a t ih =>
    cases hc : cache a with
    | none => simpa [hc] using ih
    | some p => simpa [hc, cachedResult] using ih

theorem scrapeResults_map_number (env : ScrapeEnv) (cache : Nat → Option String) (lo hi : Nat) :
    (scrapeResults env cache lo hi).map (fun r => r.number) = numbersToScrape cache lo hi := by
  rw [scrapeResults_eq, List.map_map]
  calc ((numbersToScrape cache lo hi).map
          ((fun r : NumberImage => r.number) ∘ fun n => (scrapeAndCacheNumber env n).1))
      = (numbersToScrape cache lo hi).map id :=
        List.map_congr_left (fun a _ => scrapeAndCacheNumber_number env a)
    _ = numbersToScrape cache lo hi := List.map_id _

theorem gathered_map_number_perm (env : ScrapeEnv) (cache : Nat → Option String) (lo hi : Nat) :
    ((gatheredResults env cache lo hi).map (fun r => r.number)).Perm (rangeNumbers lo hi) := by
  unfold gatheredResults
  rw [List.map_append, cachedResults_map_number, scrapeResults_map_number]
  have he : numbersToScrape cache lo hi
      = (rangeNumbers lo hi).filter (fun n => !(cache n).isSome) := by
    unfold numbersToScrape
    exact List.filter_congr (fun a _ => by cases cache a <;> rfl)
  rw [he]
  exact List.filter_append_perm _ _

theorem sortResults_sorted_numbers (l : List NumberImage) :
    List.Sorted (· ≤ ·) ((sortResults l).map (fun r => r.number)) := by
  unfold sortResults
  rw [List.Sorted, List.pairwise_map]
  have hs := @List.sorted_mergeSort NumberImage
    (fun a b : NumberImage => decide (a.number ≤ b.number))
    (fun a b c hab hbc => by
      simp only [decide_eq_true_eq] at hab hbc ⊢
      omega)
    (fun a b => by
      simp only [Bool.or_eq_true, decide_eq_true_eq]
      omega)
    l
  exact hs.imp (fun h => by simpa using h)

theorem sortResults_map_number (env : ScrapeEnv) (cache : Nat → Option String) (lo hi : Nat)
    (l : List NumberImage) (hperm : l.Perm (gatheredResults env cache lo hi)) :
    (sortResults l).map (fun r => r.number) = rangeNumbers lo hi := by
  apply @List.eq_of_perm_of_sorted Nat (· ≤ ·) inferInstance
  · exact (((List.mergeSort_perm l _).map _).trans (hperm.map _)).trans
      (gathered_map_number_perm env cache lo hi)
  · exact sortResults_sorted_numbers l
  · unfold rangeNumbers
    exact (List.pairwise_lt_range' lo (hi + 1 - lo) 1).imp le_of_lt

/-! ## C3: batching and output ordering -/

/-- **C3.** For the range `[1, 20]` with every number a cache miss, the
batching loop issues exactly 4 batches of at most 5 concurrent calls; and
for every range request the returned data carries exactly one entry per
number of `[lo, hi]` in ascending order — whatever order the concurrently
gathered entries arrive in before the final sort. -/
theorem resolve_batches_and_sorted :
    ((chunks5 (numbersToScrape (fun _ => none) 1 20)).length = 4 ∧
      ∀ b ∈ chunks5 (numbersToScrape (fun _ => none) 1 20), b.length ≤ 5) ∧
    (∀ (env : ScrapeEnv) (cache : Nat → Option String) (lo hi : Nat)
      (l : List NumberImage), l.Perm (gatheredResults env cache lo hi) →
        (sortResults l).map (fun r => r.number) = rangeNumbers lo hi) := by
  refine ⟨⟨by decide, by decide⟩, ?_⟩
  intro env cache lo hi l hperm
  exact sortResults_map_number env cache lo hi l hperm

theorem resolve_batches_and_sorted_witness :
    ((gatheredResults defaultScrapeEnv (fun _ => none) 1 3).Perm
      (gatheredResults defaultScrapeEnv (fun _ => none) 1 3)) ∧
    (sortResults (gatheredResults defaultScrapeEnv (fun _ => none) 1 3)).map
      (fun r => r.number) = rangeNumbers 1 3 :=
  ⟨List.Perm.refl _,
   resolve_batches_and_sorted.2 defaultScrapeEnv (fun _ => none) 1 3 _ (List.Perm.refl _)⟩

/-! ## C5: a fully cached range performs no remote work -/

/-- **C5.** When every number of `[lo, hi]` has a cache-index entry, the
pipeline scrapes nothing (empty to-scrape set, empty external-effect trace),
imposes zero admission-controller delay, and emits one entry per number in
order, each carrying cache provenance and the public URL derived from the
cached storage path. -/
theorem resolve_cached_range_no_remote :
    ∀ (env : ScrapeEnv) (cache : Nat → Option String) (lo hi : Nat),
      (∀ n ∈ rangeNumbers lo hi, (cache n).isSome) →
      numbersToScrape cache lo hi = [] ∧
      scrapeTrace env cache lo hi = [] ∧
      admissionDelay env cache lo hi = 0 ∧
      (resolveData env cache lo hi).map (fun r => r.number) = rangeNumbers lo hi ∧
      ∀ r ∈ resolveData env cache lo hi,
        r.cached = true ∧ ∃ p, cache r.number = some p ∧ r.imageUrl = some (env.publicUrl p) := by
  intro env cache lo hi hall
  have hempty : numbersToScrape cache lo hi = [] := by
    unfold numbersToScrape
    rw [List.filter_eq_nil_iff]
    intro a ha
    have h := hall a ha
    cases hcc : cache a with
    | none => rw [hcc] at h; simp at h
    | some p => simp [hcc]
  refine ⟨hempty, ?_, ?_, ?_, ?_⟩
  · unfold scrapeTrace
    rw [hempty]
    rfl
  · unfold admissionDelay
    rw [if_pos hempty]
  · exact sortResults_map_number env cache lo hi _ (List.Perm.refl _)
  · intro r hr
    have hscr : scrapeResults env cache lo hi = [] := by
      rw [scrapeResults_eq, hempty]
      rfl
    have hr2 : r ∈ gatheredResults env cache lo hi :=
      (List.mergeSort_perm (gatheredResults env cache lo hi) _).subset hr
    rw [gatheredResults, hscr, List.append_nil] at hr2
    unfold cachedResults at hr2
    obtain ⟨n, hn, hmap⟩ := List.mem_filterMap.mp hr2
    cases hc : cache n with
    | none => rw [hc] at hmap; simp at hmap
    | some p =>
      rw [hc] at hmap
      simp only [Option.map_some'] at hmap
      obtain rfl : cachedResult env n p = r := by simpa using hmap
      exact ⟨rfl, p, by simpa [cachedResult] using hc, rfl⟩

theorem resolve_cached_range_no_remote_witness :
    (∀ n ∈ rangeNumbers 1 3, (cacheAll n).isSome) ∧
      numbersToScrape cacheAll 1 3 = [] :=
  ⟨by decide, (resolve_cached_range_no_remote defaultScrapeEnv cacheAll 1 3 (by decide)).1⟩

/-! ## C4: per-number failure isolation -/

/-- **C4 counterexample.** On an image-download failure the entry is *not*
degraded to a `failureReason` instead of an `imageUrl`: the code returns the
original remote URL with no `error` field at all. -/
theorem scrape_download_failure_keeps_url :
    ((scrapeAndCacheNumber envDownloadFails 7).1).error = none ∧
    ((scrapeAndCacheNumber envDownloadFails 7).1).imageUrl
      = some "https://static.wikia.nocookie.net/numberblocks/images/a/ab/Seven.png" :=
  ⟨rfl, rfl⟩

/-- **C4 (amended).** `scrapeAndCacheNumber` always returns an entry for its
number (it never throws), so per-number isolation holds and every sibling of
a failed number is still resolved and present, in order; remote-scrape
errors and extraction misses degrade the entry to an `error` with no
`imageUrl`, while download and storage-write failures return the entry with
the original remote `imageUrl` and no `error` field. -/
theorem scrape_failures_isolated :
    ∀ (env : ScrapeEnv) (num : Nat),
      ((scrapeAndCacheNumber env num).1).number = num ∧
      (∀ msg, env.scrapeOutcome num = .throws msg →
        ((scrapeAndCacheNumber env num).1).imageUrl = none ∧
        ((scrapeAndCacheNumber env num).1).error = some msg) ∧
      (∀ e, env.scrapeOutcome num = .httpError e →
        ((scrapeAndCacheNumber env num).1).imageUrl = none ∧
        ((scrapeAndCacheNumber env num).1).error = some (e.getD "Request failed")) ∧
      (∀ html, env.scrapeOutcome num = .ok html → env.extract html num = none →
        ((scrapeAndCacheNumber env num).1).imageUrl = none ∧
        ((scrapeAndCacheNumber env num).1).error = some "No image found") ∧
      (∀ html u, env.scrapeOutcome num = .ok html → env.extract html num = some u →
        env.downloadOutcome u = .httpError →
        ((scrapeAndCacheNumber env num).1).imageUrl = some u ∧
        ((scrapeAndCacheNumber env num).1).error = none) ∧
      (∀ html u ct m, env.scrapeOutcome num = .ok html → env.extract html num = some u →
        env.downloadOutcome u = .ok ct →
        env.uploadOutcome (padStart3 (Nat.repr num) ++ "." ++ extensionFor ct) = .err m →
        ((scrapeAndCacheNumber env num).1).imageUrl = some u ∧
        ((scrapeAndCacheNumber env num).1).error = none) ∧
      (∀ (cache : Nat → Option String) (lo hi : Nat) (l : List NumberImage),
        l.Perm (gatheredResults env cache lo hi) →
        (sortResults l).map (fun r => r.number) = rangeNumbers lo hi) := by
  intro env num
  refine ⟨scrapeAndCacheNumber_number env num, ?_, ?_, ?_, ?_, ?_, ?_⟩
  · intro msg h
    simp [scrapeAndCacheNumber, h]
  · intro e h
    simp [scrapeAndCacheNumber, h]
  · intro html h1 h2
    simp [scrapeAndCacheNumber, h1, h2]
  · intro html u h1 h2 h3
    simp [scrapeAndCacheNumber, h1, h2, h3]
  · intro html u ct m h1 h2 h3 h4
    simp [scrapeAndCacheNumber, h1, h2, h3, h4]
  · intro cache lo hi l hperm
    exact sortResults_map_number env cache lo hi l hperm

theorem scrape_failures_isolated_witness :
    (envDownloadFails.scrapeOutcome 7 = .ok "<html/>" ∧
     envDownloadFails.extract "<html/>" 7
       = some "https://static.wikia.nocookie.net/numberblocks/images/a/ab/Seven.png" ∧
     envDownloadFails.downloadOutcome
       "https://static.wikia.nocookie.net/numberblocks/images/a/ab/Seven.png" = .httpError) ∧
    ((scrapeAndCacheNumber envDownloadFails 7).1).imageUrl
      = some "https://static.wikia.nocookie.net/numberblocks/images/a/ab/Seven.png" ∧
    ((scrapeAndCacheNumber envDownloadFails 7).1).error = none :=
  ⟨⟨rfl, rfl, rfl⟩,
   (scrape_failures_isolated envDownloadFails 7).2.2.2.2.1 "<html/>"
     "https://static.wikia.nocookie.net/numberblocks/images/a/ab/Seven.png" rfl rfl rfl⟩

/-! ## C6: storage write happens-before cache upsert -/

/-- **C6.** In both writers — `scrapeAndCacheNumber` and the
`generate-numberblock` handler — a failed storage upload is never followed
by a cache upsert, and every cache upsert for a path is preceded (strictly
earlier in the effect trace) by a successful storage upload of that same
path: a cache entry never references unwritten bytes. -/
theorem cache_upsert_after_upload :
    (∀ (env : ScrapeEnv) (num : Nat),
      (∀ p, Effect.storageUpload p false ∈ (scrapeAndCacheNumber env num).2 →
        ∀ q r, Effect.cacheUpsert q r ∉ (scrapeAndCacheNumber env num).2) ∧
      (∀ q p, Effect.cacheUpsert q p ∈ (scrapeAndCacheNumber env num).2 →
        ∃ i j : Nat, i < j ∧
          ((scrapeAndCacheNumber env num).2)[i]? = some (Effect.storageUpload p true) ∧
          ((scrapeAndCacheNumber env num).2)[j]? = some (Effect.cacheUpsert q p))) ∧
    (∀ (env : GenEnv) (input : GenInput),
      (∀ p, Effect.storageUpload p false ∈ (generateHandler env input).2 →
        ∀ q r, Effect.cacheUpsert q r ∉ (generateHandler env input).2) ∧
      (∀ q p, Effect.cacheUpsert q p ∈ (generateHandler env input).2 →
        ∃ i j : Nat, i < j ∧
          ((generateHandler env input).2)[i]? = some (Effect.storageUpload p true) ∧
          ((generateHandler env input).2)[j]? = some (Effect.cacheUpsert q p))) := by
  constructor
  · intro env num
    unfold scrapeAndCacheNumber
    cases env.scrapeOutcome num with
    | throws msg => exact ⟨by simp, by simp⟩
    | httpError e => exact ⟨by simp, by simp⟩
    | ok html =>
      dsimp only
      cases env.extract html num with
      | none => exact ⟨by simp, by simp⟩
      | some u =>
        dsimp only
        cases env.downloadOutcome u with
        | throws m => exact ⟨by simp, by simp⟩
        | httpError => exact ⟨by simp, by simp⟩
        | ok ct =>
          dsimp only
          cases env.uploadOutcome (padStart3 (Nat.repr num) ++ "." ++ extensionFor ct) with
          | err m => exact ⟨by simp, by simp⟩
          | ok =>
            constructor
            · intro p hp
              simp at hp
            · intro q p hqp
              simp only [List.mem_cons, List.not_mem_nil, or_false] at hqp
              rcases hqp with h | h | h | h
              · exact absurd h (by simp)
              · exact absurd h (by simp)
              · exact absurd h (by simp)
              · obtain ⟨hq, hp⟩ := Effect.cacheUpsert.inj h
                subst hq
                subst hp
                refine ⟨2, 3, by omega, ?_, ?_⟩ <;> rfl
  · intro env input
    unfold generateHandler
    by_cases hk : env.apiKeyPresent
    · rw [if_neg (by simp [hk])]
      by_cases hv : genInputInvalid input
      · rw [if_pos hv]
        exact ⟨by simp, by simp⟩
      · rw [if_neg hv]
        cases input with
        | absent => exact ⟨by simp, by simp⟩
        | nonNumber => exact ⟨by simp, by simp⟩
        | num n =>
          dsimp only
          cases env.api with
          | throws m => exact ⟨by simp, by simp⟩
          | rateLimited => exact ⟨by simp, by simp⟩
          | httpError => exact ⟨by simp, by simp⟩
          | noImage => exact ⟨by simp, by simp⟩
          | ok =>
            dsimp only
            cases env.upload with
            | err m => exact ⟨by simp, by simp⟩
            | ok =>
              constructor
              · intro p hp
                simp at hp
              · intro q p hqp
                simp only [List.mem_cons, List.not_mem_nil, or_false] at hqp
                rcases hqp with h | h | h
                · exact absurd h (by simp)
                · exact absurd h (by simp)
                · obtain ⟨hq, hp⟩ := Effect.cacheUpsert.inj h
                  subst hq
                  subst hp
                  refine ⟨1, 2, by omega, ?_, ?_⟩ <;> rfl
    · rw [if_pos (by simp [hk])]
      exact ⟨by simp, by simp⟩

theorem cache_upsert_after_upload_witness :
    (Effect.cacheUpsert 7 "007.png" ∈ (scrapeAndCacheNumber envAllOk 7).2) ∧
    ∃ i j : Nat, i < j ∧
      ((scrapeAndCacheNumber envAllOk 7).2)[i]? = some (Effect.storageUpload "007.png" true) ∧
      ((scrapeAndCacheNumber envAllOk 7).2)[j]? = some (Effect.cacheUpsert 7 "007.png") :=
  ⟨by decide, (cache_upsert_after_upload.1 envAllOk 7).2 7 "007.png" (by decide)⟩

/-! ## C9: the thousands-separator filename match -/

/-- **C9 (code bug).** The priority-1 numeric-filename rule of the
`proxy-image` variant of `extractInfoboxImage` is meant (per its own inline
comment) to match filenames carrying the number either plain or with
thousands separators, but the code strips the commas from the *needle*
(`numWithCommas.replace(/,/g, '') = numStr`), so a filename containing
`"2,000,000"` is not matched even though it survives the denylist and
domain checks, while the comma-free form is. -/
theorem numericFilename_comma_bug :
    isValidCharacterImage commaUrl = true ∧
    jsIncludes (filenameOf commaUrl) "2,000,000" = true ∧
    numericFilenameCondition 2000000 commaUrl = false ∧
    isValidCharacterImage plainUrl = true ∧
    numericFilenameCondition 2000000 plainUrl = true ∧
    stripCommas (natToCommaString 2000000) = Nat.repr 2000000 := by
  refine ⟨?_, ?_, ?_, ?_, ?_, ?_⟩ <;> decide
